import Mathlib

/-!
Shallow embedding of the notification concurrency engine of the
pi_aireminder repository: the alarm cycle (src/alarm_system.py), the
event-check pass and the news TTS queue (src/main.py), and the
voice-session state machine (src/voice_recognition.py).
Times are modelled as integer seconds.
-/

/-- An event record, mirroring `Event` as used by `_check_events`
(src/main.py): `event_time` in seconds, `triggered` mutated in place. -/
structure Event where
  id : String
  title : String
  description : Option String
  event_time : Int
  triggered : Bool
  deriving DecidableEq, Repr

/-- External side effects performed by `AlarmSystem` methods
(src/alarm_system.py).  `pygameMixerStop` is `pygame.mixer.stop()` (stops the
sound-effect channels), `pygameMusicStop` is `pygame.mixer.music.stop()` (stops
the gTTS playback stream) and `ttsEngineStop` is `self.tts_engine.stop()`; the
latter two are exactly what `stop_speaking` performs. -/
inductive AlarmEffect
  | logWarning
  | logInfo
  | setStopFlag
  | pygameMixerStop
  | pygameMusicStop
  | ttsEngineStop
  | joinThread (timeoutSeconds : Nat)
  | startAlarmThread
  deriving DecidableEq, Repr

/-- The mutable state of `AlarmSystem` (src/alarm_system.py, `__init__`):
`is_playing`, the cooperative `stop_flag`, the current event reference and
whether a TTS engine is available. -/
structure AlarmSt where
  is_playing : Bool
  stop_flag : Bool
  current_event : Option Event
  tts_engine : Bool
  deriving DecidableEq, Repr

/-- `AlarmSystem.trigger_alarm` (src/alarm_system.py lines 121-137): if an
alarm is already playing it logs a warning and returns; otherwise it sets
`is_playing`, clears `stop_flag` and starts the alarm-loop thread. -/
def trigger_alarm (s : AlarmSt) (_e : Event) : AlarmSt × List AlarmEffect :=
  if s.is_playing then
    (s, [.logWarning])
  else
    ({ s with is_playing := true, stop_flag := false },
     [.logInfo, .startAlarmThread])

/-- `AlarmSystem.stop_speaking` (src/alarm_system.py lines 20-32): interrupts
any ongoing TTS playback by stopping `pygame.mixer.music` and, if a pyttsx3
engine exists, stopping it too. -/
def stop_speaking (s : AlarmSt) : List AlarmEffect :=
  .pygameMusicStop :: (if s.tts_engine then [.ttsEngineStop] else [])

/-- `AlarmSystem.stop_alarm` (src/alarm_system.py lines 226-241): a no-op when
nothing is playing; otherwise it sets `stop_flag`, calls `pygame.mixer.stop()`,
joins the alarm thread with a 2 second timeout, and finally forces
`is_playing = False`. -/
def stop_alarm (s : AlarmSt) : AlarmSt × List AlarmEffect :=
  if s.is_playing then
    ({ s with stop_flag := true, is_playing := false },
     [.logInfo, .setStopFlag, .pygameMixerStop, .joinThread 2])
  else
    (s, [])

/-- The action the event-check pass takes for one event. -/
inductive CheckAction
  | trigger
  | retrigger
  | noAction
  deriving DecidableEq, Repr

/-- The body of the `for event in self.events` loop of
`ReminderSystem._check_events` (src/main.py lines 246-276).  Returns the action
taken, the (possibly updated) event, and the `alarm_system.is_playing` value
after the body ran (`_trigger_event_alarm` calls `trigger_alarm`, which leaves
`is_playing` true). -/
def checkEventBody (auto_stop_after : Int) (now : Int) (isPlaying : Bool)
    (e : Event) : CheckAction × Event × Bool :=
  if -30 ≤ e.event_time - now ∧ e.event_time - now ≤ 0 ∧ e.triggered = false then
    (.trigger, { e with triggered := true }, true)
  else if e.triggered = true ∧ isPlaying = false ∧
      0 ≤ now - e.event_time ∧ now - e.event_time < auto_stop_after then
    (.retrigger, e, true)
  else
    (.noAction, e, isPlaying)

/-- One pass of `_check_events` over the event list, threading the
`is_playing` state through the loop. -/
def checkEvents (auto_stop_after : Int) (now : Int) :
    Bool → List Event → List (CheckAction × Event) × Bool
  | isPlaying, [] => ([], isPlaying)
  | isPlaying, e :: rest =>
      let r := checkEventBody auto_stop_after now isPlaying e
      let r2 := checkEvents auto_stop_after now r.2.2 rest
      ((r.1, r.2.1) :: r2.1, r2.2)

/-! ## News readback queue (src/main.py lines 396-460)

The cancellation token lives, when it exists at all, as an attribute
`_news_cancel_token` of the display object; `getattr(..., 0)` reads and
`hasattr(...)` guards the increment.  The attribute is modelled as an
`Option Nat`: `none` when the attribute was never created. -/

/-- A fetched news item (src/news_fetcher.py). -/
structure NewsItem where
  source : String
  title : String
  description : String
  deriving DecidableEq, Repr

/-- The news-TTS state owned by `ReminderSystem` together with the display
attributes it reads: the FIFO of `(item, auto_advance, scheduled_token)`
tasks, the worker stop event, the display's `_news_cancel_token` attribute
(`none` when absent) and the display's `auto_read_active` flag. -/
structure NewsSt where
  news_tts_queue : List (NewsItem × Bool × Nat)
  stopEventSet : Bool
  displayCancelToken : Option Nat
  auto_read_active : Bool
  deriving DecidableEq, Repr

/-- `getattr(self.display, '_news_cancel_token', 0)`. -/
def getattrCancelToken (s : NewsSt) : Nat :=
  s.displayCancelToken.getD 0

/-- `ReminderSystem._read_news` (src/main.py lines 396-404): stamp the task
with the cancel token read at scheduling time and append it to the queue
(worker start elided). -/
def read_news (s : NewsSt) (item : NewsItem) (auto_advance : Bool) : NewsSt :=
  { s with news_tts_queue :=
      s.news_tts_queue ++ [(item, auto_advance, getattrCancelToken s)] }

/-- `ReminderSystem.stop_news_tts` (src/main.py lines 450-460): set the stop
event, clear the queue, and increment the display's `_news_cancel_token`
attribute only when it exists (`hasattr` guard). -/
def stop_news_tts (s : NewsSt) : NewsSt :=
  { s with
    stopEventSet := true,
    news_tts_queue := [],
    displayCancelToken :=
      match s.displayCancelToken with
      | some k => some (k + 1)
      | none => none }

/-- What one iteration of the news worker did. -/
inductive WorkerOutcome
  | idle
  | droppedByToken
  | droppedByAutoRead
  | spoke (text : String)
  deriving DecidableEq, Repr

/-- One iteration of `ReminderSystem._news_tts_worker` (src/main.py lines
406-448): the loop runs only while the queue is non-empty and the stop event
is unset; it pops the front task, drops it when its stamped token differs from
the current token or when auto-read is off, and otherwise speaks it
(the post-speak re-checks and auto-advance are elided). -/
def news_tts_worker_step (s : NewsSt) : WorkerOutcome × NewsSt :=
  match s.news_tts_queue, s.stopEventSet with
  | [], _ => (.idle, s)
  | _ :: _, true => (.idle, s)
  | (item, _auto_advance, scheduled) :: rest, false =>
      let s1 := { s with news_tts_queue := rest }
      if scheduled ≠ getattrCancelToken s1 then (.droppedByToken, s1)
      else if s1.auto_read_active = false then (.droppedByAutoRead, s1)
      else (.spoke ("News from " ++ item.source ++ ". " ++ item.title ++ ". "
              ++ item.description ++ "."), s1)

/-- The news state as the application actually constructs it: empty queue,
stop event clear, and no `_news_cancel_token` attribute anywhere (nothing in
the repository ever creates it), with auto-read running. -/
def initNewsSt : NewsSt :=
  { news_tts_queue := [], stopEventSet := false,
    displayCancelToken := none, auto_read_active := true }

/-! ## Voice recognition (src/voice_recognition.py)

Recognized text is modelled as a list of characters; the Python string
operations used by `_process_text` (`in`, `split(w, 1)[1]`, `strip`,
`startswith`) are embedded below. -/

/-- Python `s.startswith(pat)` on character lists. -/
def pyStartsWith : List Char → List Char → Bool
  | _, [] => true
  | [], _ :: _ => false
  | c :: cs, p :: ps => c = p && pyStartsWith cs ps

/-- Python `pat in s` (substring containment) on character lists. -/
def pyContains : List Char → List Char → Bool
  | [], pat => pyStartsWith [] pat
  | c :: cs, pat => pyStartsWith (c :: cs) pat || pyContains cs pat

/-- Python `s.split(pat, 1)[1]`: the characters after the first occurrence of
`pat`, when `pat` occurs in `s`. -/
def pySplitAfter : List Char → List Char → Option (List Char)
  | [], pat => if pyStartsWith [] pat then some [] else none
  | c :: cs, pat =>
      if pyStartsWith (c :: cs) pat then some ((c :: cs).drop pat.length)
      else pySplitAfter cs pat

/-- Python `s.strip()` on character lists. -/
def pyStrip (s : List Char) : List Char :=
  ((s.dropWhile Char.isWhitespace).reverse.dropWhile Char.isWhitespace).reverse

/-- The session-related state of `VoiceRecognition` (src/voice_recognition.py
`__init__`): `session_active` and `last_session_time` (a timestamp in
seconds, `none` when unset). -/
structure VRState where
  session_active : Bool
  last_session_time : Option Int
  deriving DecidableEq, Repr

/-- `self.session_timeout = 60  # seconds` (src/voice_recognition.py). -/
def session_timeout : Int := 60

/-- `VoiceRecognition.is_session_active` (src/voice_recognition.py lines
78-88): returns `false` if the session flag is off or no activity time is
recorded; if more than `session_timeout` seconds have elapsed it clears the
flag (a mutating query) and returns `false`; otherwise returns `true`. -/
def is_session_active (s : VRState) (now : Int) : Bool × VRState :=
  if s.session_active = false then (false, s)
  else
    match s.last_session_time with
    | none => (false, s)
    | some t =>
        if now - t > session_timeout then (false, { s with session_active := false })
        else (true, s)

/-- `VoiceRecognition.enable_session` (src/voice_recognition.py lines 90-95). -/
def enable_session (_s : VRState) (now : Int) : VRState :=
  { session_active := true, last_session_time := some now }

/-- `VoiceRecognition.disable_session` (src/voice_recognition.py lines
97-101). -/
def disable_session (_s : VRState) : VRState :=
  { session_active := false, last_session_time := none }

/-- The wake words and the stop command of `VoiceRecognition` (lowercased at
construction). -/
structure VRConfig where
  wake_words : List (List Char)
  stop_command : List Char
  deriving Repr

/-- The default wake words `['assistant', 'hellen', 'pi', 'hello']`. -/
def defaultWakeWords : List (List Char) :=
  ["assistant".data, "hellen".data, "pi".data, "hello".data]

/-- The default configuration: default wake words, stop command `'stop'`. -/
def defaultVRConfig : VRConfig :=
  ⟨defaultWakeWords, "stop".data⟩

/-- The session-start phrase checked inside the wake-word branch. -/
def letsChatPhrase : List Char := "let's chat".data

/-- What `_process_text` did with a fragment: dispatched the stop command,
enabled a session and forwarded the remainder, forwarded the remainder,
consumed the fragment with nothing to forward, forwarded the whole fragment
inside an active session, or forwarded the whole fragment with no session. -/
inductive ProcessResult
  | stopCmd
  | wakeSession (query : List Char)
  | wakeForward (query : List Char)
  | wakeConsumed
  | sessionForward (text : List Char)
  | plainForward (text : List Char)
  deriving DecidableEq, Repr

/-- The wake-word branch of `_process_text` (src/voice_recognition.py lines
271-290): split off the text after the wake word, strip it; if it contains
the session-start phrase, enable the session and forward it; otherwise
forward it when non-empty; in every case the fragment is consumed. -/
def wakeBranch (s : VRState) (now : Int) (text w : List Char) :
    ProcessResult × VRState :=
  match pySplitAfter text w with
  | some after =>
      if pyContains (pyStrip after) letsChatPhrase then
        (.wakeSession (pyStrip after), enable_session s now)
      else if pyStrip after = [] then (.wakeConsumed, s)
      else (.wakeForward (pyStrip after), s)
  | none => (.wakeConsumed, s)

/-- The first configured wake word contained in the text
(`for wake_word in self.wake_words: if wake_word in text`). -/
def findFirstWake (wake_words : List (List Char)) (text : List Char) :
    Option (List Char) :=
  wake_words.find? (fun w => pyContains text w)

/-- `VoiceRecognition._process_text` (src/voice_recognition.py lines 257-304):
stop command first (substring check, disables the session); then the wake-word
branch for the first wake word contained in the text; then, when the session
is live (a mutating `is_session_active` query), re-stamp the activity time and
forward the whole text; otherwise forward the whole text with no session. -/
def processText (cfg : VRConfig) (s : VRState) (now : Int) (text : List Char) :
    ProcessResult × VRState :=
  if pyContains text cfg.stop_command then (.stopCmd, disable_session s)
  else
    match findFirstWake cfg.wake_words text with
    | some w => wakeBranch s now text w
    | none =>
        if (is_session_active s now).1 then
          (.sessionForward text,
           { (is_session_active s now).2 with last_session_time := some now })
        else (.plainForward text, (is_session_active s now).2)

/-- Whether a `_process_text` outcome went through the wake-word branch. -/
def isWakeHandled : ProcessResult → Bool
  | .wakeSession _ => true
  | .wakeForward _ => true
  | .wakeConsumed => true
  | _ => false

/-- `ReminderSystem._run_gui_loop`'s session-liveness check (src/main.py lines
211-217): when the raw `session_active` flag is set but `is_session_active()`
reports the session dead, disable the session, clear the chat history and
update the status; the returned boolean is whether the "session ended" signal
was emitted. -/
def guiLoopSessionCheck (s : VRState) (now : Int) : VRState × Bool :=
  if s.session_active then
    let r := is_session_active s now
    if r.1 = false then (disable_session r.2, true)
    else (r.2, false)
  else (s, false)

/-! ## Speech mutual exclusion (src/alarm_system.py `_speak`, `tts_lock`)

Every producer of spoken output reaches the external synthesis primitive only
inside `AlarmSystem._speak`, which wraps the call in `with self.tts_lock`.
The model below interleaves threads, each running a list of atomic actions;
a thread is "in the primitive" between `enterPrim` and `exitPrim`. -/

namespace Speech

/-- Atomic actions of a speech producer: take or give back `tts_lock`, enter
or leave the external speak primitive, or do something unrelated to speech
(logging, display updates, queue bookkeeping). -/
inductive Act
  | acquire
  | release
  | enterPrim
  | exitPrim
  | silent
  deriving DecidableEq, Repr

/-- Lock discipline of a program, scanned from a thread-local state
`(holds, inPrim)`: the lock is taken only when free, released only when held
and outside the primitive, and the primitive is entered only while holding
the lock. -/
def wfProg : Bool → Bool → List Act → Bool
  | _, _, [] => true
  | h, p, Act.acquire :: rest => !h && !p && wfProg true false rest
  | h, p, Act.release :: rest => h && !p && wfProg false false rest
  | h, p, Act.enterPrim :: rest => h && !p && wfProg h true rest
  | h, p, Act.exitPrim :: rest => h && p && wfProg h false rest
  | h, p, Act.silent :: rest => wfProg h p rest

/-- A thread: its remaining program, whether it holds `tts_lock`, and whether
it is inside the external speak primitive. -/
structure Thr where
  prog : List Act
  holds : Bool
  inPrim : Bool

/-- A system of `n` interleaved threads sharing the single `tts_lock`. -/
structure Sys (n : Nat) where
  lock : Option (Fin n)
  thr : Fin n → Thr

/-- The interleaving small-step semantics: any thread may run its next action;
`acquire` blocks while the lock is taken. -/
inductive Step {n : Nat} : Sys n → Sys n → Prop
  | acquire (σ : Sys n) (i : Fin n) (rest : List Act)
      (hp : (σ.thr i).prog = Act.acquire :: rest) (hl : σ.lock = none) :
      Step σ ⟨some i, Function.update σ.thr i ⟨rest, true, (σ.thr i).inPrim⟩⟩
  | release (σ : Sys n) (i : Fin n) (rest : List Act)
      (hp : (σ.thr i).prog = Act.release :: rest) :
      Step σ ⟨none, Function.update σ.thr i ⟨rest, false, (σ.thr i).inPrim⟩⟩
  | enterPrim (σ : Sys n) (i : Fin n) (rest : List Act)
      (hp : (σ.thr i).prog = Act.enterPrim :: rest) :
      Step σ ⟨σ.lock, Function.update σ.thr i ⟨rest, (σ.thr i).holds, true⟩⟩
  | exitPrim (σ : Sys n) (i : Fin n) (rest : List Act)
      (hp : (σ.thr i).prog = Act.exitPrim :: rest) :
      Step σ ⟨σ.lock, Function.update σ.thr i ⟨rest, (σ.thr i).holds, false⟩⟩
  | silent (σ : Sys n) (i : Fin n) (rest : List Act)
      (hp : (σ.thr i).prog = Act.silent :: rest) :
      Step σ ⟨σ.lock, Function.update σ.thr i ⟨rest, (σ.thr i).holds, (σ.thr i).inPrim⟩⟩

/-- Reachability under the interleaving semantics. -/
abbrev Reach {n : Nat} (σ0 σ : Sys n) : Prop :=
  Relation.ReflTransGen Step σ0 σ

/-- The system invariant: the lock is held by exactly the thread it points to,
a thread inside the primitive holds the lock, and every thread's remaining
program respects the lock discipline. -/
def Inv {n : Nat} (σ : Sys n) : Prop :=
  (∀ i, (σ.thr i).holds = true ↔ σ.lock = some i) ∧
  (∀ i, (σ.thr i).inPrim = true → (σ.thr i).holds = true) ∧
  (∀ i, wfProg (σ.thr i).holds (σ.thr i).inPrim (σ.thr i).prog = true)

/-- The action trace of `AlarmSystem._speak(text)` (src/alarm_system.py lines
247-278): without a TTS engine it only logs; otherwise it takes `tts_lock`,
shows the speaking text, calls the external synthesis primitive
(`_speak_windows` / `_speak_linux`), hides the text and releases the lock. -/
def speakTrace (ttsAvailable : Bool) : List Act :=
  if ttsAvailable then
    [.acquire, .silent, .enterPrim, .exitPrim, .silent, .release]
  else [.silent]

/-- The announcement part of `AlarmSystem._alarm_loop` (src/alarm_system.py
lines 146-163): `_speak` the title, then `_speak` the description when
present. -/
def alarmAnnounceTrace (tts : Bool) (e : Event) : List Act :=
  speakTrace tts ++ (match e.description with
    | some _ => speakTrace tts
    | none => [])

/-- One news readback by `_news_tts_worker` (src/main.py lines 406-448): it
calls `self.alarm_system._speak(text_to_read)` and then does queue
bookkeeping. -/
def newsWorkerSpeakTrace (tts : Bool) : List Act :=
  speakTrace tts ++ [.silent]

/-- `AlarmSystem.speak_async` (src/alarm_system.py lines 367-375), used for
chat replies and confirmations: `stop_speaking` (two non-speaking calls),
then `_speak` on a fresh thread. -/
def speakAsyncTrace (tts : Bool) : List Act :=
  [.silent, .silent] ++ speakTrace tts

/-- Three concurrent producers: an alarm announcement, a news readback and a
chat-reply announcement, none holding the lock initially. -/
def initThreads (tts : Bool) (e : Event) : Fin 3 → Thr :=
  ![⟨alarmAnnounceTrace tts e, false, false⟩,
    ⟨newsWorkerSpeakTrace tts, false, false⟩,
    ⟨speakAsyncTrace tts, false, false⟩]

/-- The initial system: lock free, the three producers at the start of their
programs. -/
def initSys (tts : Bool) (e : Event) : Sys 3 :=
  ⟨none, initThreads tts e⟩

/-- A concrete event used to exercise the model. -/
def demoEvent : Event :=
  ⟨"e1", "title", none, 0, false⟩

/-- The system after thread 0 acquired the lock. -/
def demoSys1 : Sys 3 :=
  ⟨some 0, Function.update (initThreads true demoEvent) 0
      ⟨[.silent, .enterPrim, .exitPrim, .silent, .release], true, false⟩⟩

/-- The system after thread 0 also showed the speaking text. -/
def demoSys2 : Sys 3 :=
  ⟨some 0, Function.update demoSys1.thr 0
      ⟨[.enterPrim, .exitPrim, .silent, .release], true, false⟩⟩

/-- The system after thread 0 entered the external speak primitive. -/
def demoSys3 : Sys 3 :=
  ⟨some 0, Function.update demoSys2.thr 0
      ⟨[.exitPrim, .silent, .release], true, true⟩⟩

end Speech

/-! ## Helper lemmas for the event-check characterization -/

/-- Case lemma: untriggered event inside the trigger window. -/
theorem checkEventBody_eq_trigger {a now : Int} {p : Bool} {e : Event}
    (h1 : -30 ≤ e.event_time - now) (h2 : e.event_time - now ≤ 0)
    (h3 : e.triggered = false) :
    checkEventBody a now p e = (.trigger, { e with triggered := true }, true) := by
  simp [checkEventBody, h1, h2, h3]

/-- Case lemma: triggered event, no alarm playing, inside the re-trigger
window. -/
theorem checkEventBody_eq_retrigger {a now : Int} {p : Bool} {e : Event}
    (h3 : e.triggered = true) (hp : p = false)
    (h4 : 0 ≤ now - e.event_time) (h5 : now - e.event_time < a) :
    checkEventBody a now p e = (.retrigger, e, true) := by
  simp [checkEventBody, h3, hp, h4, h5]

/-- Case lemma: untriggered event outside the trigger window. -/
theorem checkEventBody_eq_noAction_untrig {a now : Int} {p : Bool} {e : Event}
    (h3 : e.triggered = false)
    (hA : ¬(-30 ≤ e.event_time - now ∧ e.event_time - now ≤ 0)) :
    checkEventBody a now p e = (.noAction, e, p) := by
  unfold checkEventBody
  split_ifs with h1 h2
  · exact absurd ⟨h1.1, h1.2.1⟩ hA
  · exact absurd h2.1 (by simp [h3])
  · rfl

/-- Case lemma: triggered event while an alarm is playing. -/
theorem checkEventBody_eq_noAction_playing {a now : Int} {p : Bool} {e : Event}
    (h3 : e.triggered = true) (hp : p = true) :
    checkEventBody a now p e = (.noAction, e, p) := by
  unfold checkEventBody
  split_ifs with h1 h2
  · exact absurd h1.2.2 (by simp [h3])
  · exact absurd h2.2.1 (by simp [hp])
  · rfl

/-- Case lemma: triggered event outside the re-trigger window. -/
theorem checkEventBody_eq_noAction_expired {a now : Int} {p : Bool} {e : Event}
    (h3 : e.triggered = true)
    (hB : ¬(0 ≤ now - e.event_time ∧ now - e.event_time < a)) :
    checkEventBody a now p e = (.noAction, e, p) := by
  unfold checkEventBody
  split_ifs with h1 h2
  · exact absurd h1.2.2 (by simp [h3])
  · exact absurd ⟨h2.2.2.1, h2.2.2.2⟩ hB
  · rfl

/-! ## Claim theorems -/

/-- C1: while an alarm is playing, `trigger_alarm` only logs a warning: the
state is returned unchanged, no alarm thread is started and nothing is
queued. -/
theorem c1_trigger_while_playing_noop (s : AlarmSt) (e : Event)
    (h : s.is_playing = true) :
    trigger_alarm s e = (s, [AlarmEffect.logWarning]) := by
  simp [trigger_alarm, h]

/-- Witness for C1 at a concrete playing state. -/
theorem c1_trigger_while_playing_noop_witness :
    trigger_alarm ⟨true, false, none, true⟩ ⟨"e1", "t", none, 0, false⟩
      = (⟨true, false, none, true⟩, [AlarmEffect.logWarning]) :=
  c1_trigger_while_playing_noop ⟨true, false, none, true⟩
    ⟨"e1", "t", none, 0, false⟩ rfl

/-- C6: for every state, `stop_alarm` returns with `is_playing = false`
(it forces the flag after the bounded 2 second join), the join it performs is
bounded by 2 seconds when an alarm was playing, and a second call is a no-op
performing no further action. -/
theorem c6_stop_alarm_idempotent (s : AlarmSt) :
    (stop_alarm s).1.is_playing = false ∧
    (s.is_playing = true →
      (stop_alarm s).2 = [.logInfo, .setStopFlag, .pygameMixerStop, .joinThread 2]) ∧
    stop_alarm (stop_alarm s).1 = ((stop_alarm s).1, []) := by
  by_cases h : s.is_playing
  · refine ⟨?_, fun _ => ?_, ?_⟩ <;> simp [stop_alarm, h]
  · simp at h
    refine ⟨?_, fun hh => ?_, ?_⟩
    · simp [stop_alarm, h]
    · rw [h] at hh; cases hh
    · simp [stop_alarm, h]

/-- Witness for C6 at a concrete playing state. -/
theorem c6_stop_alarm_idempotent_witness :
    (stop_alarm ⟨true, false, none, true⟩).1.is_playing = false ∧
    (stop_alarm ⟨true, false, none, true⟩).2
        = [.logInfo, .setStopFlag, .pygameMixerStop, .joinThread 2] ∧
    stop_alarm (stop_alarm ⟨true, false, none, true⟩).1
        = ((stop_alarm ⟨true, false, none, true⟩).1, []) := by
  obtain ⟨h1, h2, h3⟩ := c6_stop_alarm_idempotent ⟨true, false, none, true⟩
  exact ⟨h1, h2 rfl, h3⟩

/-- C4 counterexample: at a concrete playing state, `stop_alarm` sets the stop
flag, stops the pygame sound channels and joins with a 2 second bound, but it
performs neither of the two operations of `stop_speaking`
(`pygame.mixer.music.stop()` / `tts_engine.stop()`) — so it does not invoke
the operation that halts ongoing TTS playback, contradicting the claim. -/
theorem c4_counterexample :
    (stop_alarm ⟨true, false, none, true⟩).2
        = [.logInfo, .setStopFlag, .pygameMixerStop, .joinThread 2] ∧
    stop_speaking ⟨true, false, none, true⟩
        = [.pygameMusicStop, .ttsEngineStop] ∧
    ∀ a ∈ stop_speaking ⟨true, false, none, true⟩,
      a ∉ (stop_alarm ⟨true, false, none, true⟩).2 := by
  refine ⟨by decide, by decide, ?_⟩
  decide

/-- C4 amended: manual stop while an alarm plays sets the cooperative stop
flag, stops the pygame sound channels (`pygame.mixer.stop()`), and waits a
bounded 2 seconds for the alarm thread; it does not perform any of the
TTS-interrupt operations of `stop_speaking`, so an in-flight utterance is not
interrupted by `stop_alarm` itself. -/
theorem c4_amended (s : AlarmSt) (h : s.is_playing = true) :
    stop_alarm s = ({ s with stop_flag := true, is_playing := false },
        [.logInfo, .setStopFlag, .pygameMixerStop, .joinThread 2]) ∧
    ∀ a ∈ stop_speaking s, a ∉ (stop_alarm s).2 := by
  constructor
  · simp [stop_alarm, h]
  · intro a ha
    simp [stop_speaking] at ha
    rcases ha with ha | ⟨-, ha⟩ <;> subst ha <;> simp [stop_alarm, h]

/-- Witness for C4 amended at a concrete playing state. -/
theorem c4_amended_witness :
    stop_alarm ⟨true, false, none, true⟩
      = (⟨false, true, none, true⟩,
         [.logInfo, .setStopFlag, .pygameMixerStop, .joinThread 2]) ∧
    ∀ a ∈ stop_speaking ⟨true, false, none, true⟩,
      a ∉ (stop_alarm ⟨true, false, none, true⟩).2 :=
  c4_amended ⟨true, false, none, true⟩ rfl

/-- C3: the event-check loop body triggers exactly the untriggered events whose
`event_time - now` lies in `[-30, 0]` (and marks them `triggered`), re-triggers
exactly the already-triggered events when no alarm is playing and
`now - event_time` lies in `[0, auto_stop_after)`, and never re-triggers an
event once `auto_stop_after` or more seconds have elapsed since its time. -/
theorem c3_check_events_policy (auto_stop_after now : Int) (isPlaying : Bool)
    (e : Event) :
    ((checkEventBody auto_stop_after now isPlaying e).1 = .trigger ↔
      (e.triggered = false ∧ -30 ≤ e.event_time - now ∧ e.event_time - now ≤ 0)) ∧
    ((checkEventBody auto_stop_after now isPlaying e).2.1.triggered = true ↔
      (e.triggered = true ∨ (-30 ≤ e.event_time - now ∧ e.event_time - now ≤ 0))) ∧
    ((checkEventBody auto_stop_after now isPlaying e).1 = .retrigger ↔
      (e.triggered = true ∧ isPlaying = false ∧
        0 ≤ now - e.event_time ∧ now - e.event_time < auto_stop_after)) ∧
    (auto_stop_after ≤ now - e.event_time →
      (checkEventBody auto_stop_after now isPlaying e).1 ≠ .retrigger) := by
  cases htr : e.triggered
  · by_cases hA : -30 ≤ e.event_time - now ∧ e.event_time - now ≤ 0
    · rw [checkEventBody_eq_trigger hA.1 hA.2 htr]
      refine ⟨?_, ?_, ?_, ?_⟩
      · simp [htr, hA.1, hA.2]
      · simp [hA.1, hA.2]
      · simp [htr]
      · intro _
        simp
    · rw [checkEventBody_eq_noAction_untrig htr hA]
      refine ⟨?_, ?_, ?_, ?_⟩
      · simpa [htr] using hA
      · simpa [htr] using hA
      · simp [htr]
      · intro _
        simp
  · cases hpl : isPlaying
    · by_cases hB : 0 ≤ now - e.event_time ∧ now - e.event_time < auto_stop_after
      · obtain ⟨hB1, hB2⟩ := hB
        rw [checkEventBody_eq_retrigger htr rfl hB1 hB2]
        refine ⟨?_, ?_, ?_, ?_⟩
        · simp [htr]
        · simp [htr]
        · simp [htr, hpl, hB1, hB2]
        · intro hx
          exfalso
          omega
      · rw [checkEventBody_eq_noAction_expired htr hB]
        refine ⟨?_, ?_, ?_, ?_⟩
        · simp [htr]
        · simp [htr]
        · simpa [htr, hpl] using hB
        · intro _
          simp
    · rw [checkEventBody_eq_noAction_playing htr rfl]
      refine ⟨?_, ?_, ?_, ?_⟩
      · simp [htr]
      · simp [htr]
      · simp [htr, hpl]
      · intro _
        simp

/-- Witness for C3: an untriggered event 10 seconds past due is triggered, and
a triggered event 1900 seconds past due (with `auto_stop_after = 1800`) is not
re-triggered. -/
theorem c3_check_events_policy_witness :
    (checkEventBody 1800 100 false ⟨"e1", "t", none, 90, false⟩).1
        = CheckAction.trigger ∧
    (checkEventBody 1800 100 false ⟨"e2", "t", none, -1800, true⟩).1
        ≠ CheckAction.retrigger := by
  constructor
  · exact (c3_check_events_policy 1800 100 false
      ⟨"e1", "t", none, 90, false⟩).1.mpr (by norm_num)
  · exact (c3_check_events_policy 1800 100 false
      ⟨"e2", "t", none, -1800, true⟩).2.2.2 (by norm_num)

/-- C2: evaluation at the state the application actually builds.  The display
object never gets a `_news_cancel_token` attribute, so a news task is stamped
with token `0`; `stop_news_tts` leaves the effective token at `0` (its
increment is dead behind the `hasattr` guard, although it logs that it
incremented) and the attribute still absent; the task disappears only because
the queue is cleared, and the worker goes idle without ever observing a token
mismatch. -/
theorem c2_cancel_token_never_incremented :
    getattrCancelToken (read_news initNewsSt ⟨"BBC", "Headline", "Body"⟩ true) = 0 ∧
    (read_news initNewsSt ⟨"BBC", "Headline", "Body"⟩ true).news_tts_queue
        = [(⟨"BBC", "Headline", "Body"⟩, true, 0)] ∧
    getattrCancelToken
        (stop_news_tts (read_news initNewsSt ⟨"BBC", "Headline", "Body"⟩ true)) = 0 ∧
    (stop_news_tts (read_news initNewsSt ⟨"BBC", "Headline", "Body"⟩ true)).displayCancelToken
        = none ∧
    news_tts_worker_step
        (stop_news_tts (read_news initNewsSt ⟨"BBC", "Headline", "Body"⟩ true))
      = (.idle, stop_news_tts (read_news initNewsSt ⟨"BBC", "Headline", "Body"⟩ true)) :=
  ⟨rfl, rfl, rfl, rfl, rfl⟩

/-- Helper: every outcome of the wake-word branch counts as wake-word
handling (the fragment is consumed there even when nothing is forwarded). -/
theorem wakeBranch_handled (s : VRState) (now : Int) (text w : List Char) :
    isWakeHandled (wakeBranch s now text w).1 = true := by
  unfold wakeBranch
  cases pySplitAfter text w with
  | none => rfl
  | some after =>
      dsimp only
      split_ifs <;> rfl

/-- C5 counterexample: the fragment `"turn on pi lights"` starts with no
configured wake word, yet `_process_text` treats it as wake-word-directed
(the wake word `"pi"` occurs mid-fragment) and forwards `"lights"`. -/
theorem c5_counterexample :
    (processText defaultVRConfig ⟨false, none⟩ 0 "turn on pi lights".data).1
        = ProcessResult.wakeForward "lights".data ∧
    defaultWakeWords.all (fun w => !pyStartsWith "turn on pi lights".data w) = true := by
  constructor
  · decide
  · decide

/-- C5 amended: a fragment undergoes wake-word handling if and only if it does
not contain the stop command and some configured wake word occurs as a
substring anywhere in it (the code checks `wake_word in text`, a containment
test, not a prefix test). -/
theorem c5_amended (cfg : VRConfig) (s : VRState) (now : Int) (text : List Char) :
    isWakeHandled (processText cfg s now text).1 = true ↔
      (pyContains text cfg.stop_command = false ∧
       ∃ w ∈ cfg.wake_words, pyContains text w = true) := by
  unfold processText
  by_cases hstop : pyContains text cfg.stop_command
  · simp [hstop, isWakeHandled]
  · rw [if_neg (by simp [hstop])]
    cases hfind : findFirstWake cfg.wake_words text with
    | some w =>
        simp only [wakeBranch_handled, true_iff]
        refine ⟨by simp [hstop], w, ?_, ?_⟩
        · exact List.mem_of_find?_eq_some hfind
        · exact List.find?_some hfind
    | none =>
        have hnone : ∀ x ∈ cfg.wake_words, ¬ pyContains text x = true :=
          fun x hx => by simpa using List.find?_eq_none.mp hfind x hx
        constructor
        · intro hx
          exfalso
          by_cases hs : (is_session_active s now).1 = true
          · rw [if_pos hs] at hx
            simp [isWakeHandled] at hx
          · rw [if_neg hs] at hx
            simp [isWakeHandled] at hx
        · rintro ⟨-, w, hw, hcont⟩
          exact absurd hcont (hnone w hw)

/-- Witness for C5 amended: `"hello there"` begins with the wake word
`"hello"` and is wake-handled. -/
theorem c5_amended_witness :
    isWakeHandled (processText defaultVRConfig ⟨false, none⟩ 0 "hello there".data).1
      = true := by
  refine (c5_amended defaultVRConfig ⟨false, none⟩ 0 "hello there".data).mpr ?_
  refine ⟨by decide, "hello".data, by decide, by decide⟩

/-- C7 counterexample: processing `"assistant let's chat please"` enables the
session but forwards the whole remainder `"let's chat please"`, not
`"please"` as the claim states. -/
theorem c7_counterexample :
    (processText defaultVRConfig ⟨false, none⟩ 5 "assistant let's chat please".data).1
        = ProcessResult.wakeSession "let's chat please".data ∧
    ProcessResult.wakeSession "let's chat please".data
        ≠ ProcessResult.wakeSession "please".data := by
  constructor
  · decide
  · decide

/-- C7 amended: processing `"assistant let's chat please"` transitions the
session to active, stamps the activity time with the current time, and
forwards the text after the wake word, `"let's chat please"` (the
session-start phrase is not stripped). -/
theorem c7_amended (s : VRState) (now : Int) :
    processText defaultVRConfig s now "assistant let's chat please".data
      = (ProcessResult.wakeSession "let's chat please".data,
         { session_active := true, last_session_time := some now }) := rfl

/-- C8: when the session flag is set, an activity stamp exists and more than
60 seconds have elapsed, the next polling-loop liveness check disables the
session and emits the "session ended" signal; on the resulting state every
later check emits nothing. -/
theorem c8_session_timeout_emits_once (s : VRState) (t now : Int)
    (h1 : s.session_active = true) (h2 : s.last_session_time = some t)
    (h3 : now - t > 60) :
    guiLoopSessionCheck s now = (⟨false, none⟩, true) ∧
    ∀ now2 : Int, guiLoopSessionCheck ⟨false, none⟩ now2 = (⟨false, none⟩, false) := by
  constructor
  · unfold guiLoopSessionCheck is_session_active
    rw [if_pos (by simp [h1])]
    simp [h1, h2, session_timeout, h3, disable_session]
  · intro now2
    rfl

/-- Witness for C8: a session stamped at 0 checked at 61 ends exactly once. -/
theorem c8_session_timeout_emits_once_witness :
    guiLoopSessionCheck ⟨true, some 0⟩ 61 = (⟨false, none⟩, true) ∧
    guiLoopSessionCheck ⟨false, none⟩ 100 = (⟨false, none⟩, false) := by
  obtain ⟨ha, hb⟩ :=
    c8_session_timeout_emits_once ⟨true, some 0⟩ 0 61 rfl rfl (by norm_num)
  exact ⟨ha, hb 100⟩

/-- C10: `is_session_active` is a mutating query: with no recorded activity
time it returns `false` leaving the state unchanged (even when the active
flag is set), and when more than 60 seconds have elapsed since the stamp it
returns `false` and switches the session flag off. -/
theorem c10_liveness_query_mutates (s : VRState) (now t : Int) :
    (s.last_session_time = none → is_session_active s now = (false, s)) ∧
    (s.last_session_time = some t → now - t > 60 →
      is_session_active s now = (false, { s with session_active := false })) := by
  constructor
  · intro h
    unfold is_session_active
    by_cases ha : s.session_active = false
    · simp [ha]
    · simp [ha, h]
  · intro h hgt
    unfold is_session_active
    by_cases ha : s.session_active = false
    · have hs : { s with session_active := false } = s := by
        cases s
        simp_all
      rw [hs, if_pos ha]
    · simp [ha, h, session_timeout, hgt]

/-- Witness for C10 at two concrete states: an active session with no stamp
reports dead without mutation; an active session stamped 61 seconds ago is
switched off by the query. -/
theorem c10_liveness_query_mutates_witness :
    is_session_active ⟨true, none⟩ 0 = (false, ⟨true, none⟩) ∧
    is_session_active ⟨true, some 0⟩ 61 = (false, ⟨false, some 0⟩) := by
  constructor
  · exact (c10_liveness_query_mutates ⟨true, none⟩ 0 0).1 rfl
  · exact (c10_liveness_query_mutates ⟨true, some 0⟩ 61 0).2 rfl (by norm_num)

namespace Speech

/-- The invariant is preserved by every interleaving step. -/
theorem inv_step {n : Nat} {σ σ2 : Sys n} (hinv : Inv σ) (hs : Step σ σ2) :
    Inv σ2 := by
  obtain ⟨i1, i2, i3⟩ := hinv
  cases hs with
  | acquire i rest hp hl =>
      have hwf := i3 i
      rw [hp] at hwf
      simp [wfProg] at hwf
      obtain ⟨⟨hh, hpm⟩, hwf2⟩ := hwf
      refine ⟨?_, ?_, ?_⟩
      · intro j
        dsimp only
        by_cases hij : j = i
        · rw [hij, Function.update_same]
          simp
        · rw [Function.update_noteq hij]
          constructor
          · intro hj
            have hl2 := (i1 j).mp hj
            rw [hl] at hl2
            exact Option.noConfusion hl2
          · intro hj
            exact absurd (Option.some.inj hj).symm hij
      · intro j
        dsimp only
        by_cases hij : j = i
        · rw [hij, Function.update_same]
          intro _
          rfl
        · rw [Function.update_noteq hij]
          exact i2 j
      · intro j
        dsimp only
        by_cases hij : j = i
        · rw [hij, Function.update_same]
          dsimp only
          rw [hpm]
          exact hwf2
        · rw [Function.update_noteq hij]
          exact i3 j
  | release i rest hp =>
      have hwf := i3 i
      rw [hp] at hwf
      simp [wfProg] at hwf
      obtain ⟨⟨hh, hpm⟩, hwf2⟩ := hwf
      have hlock : σ.lock = some i := (i1 i).mp hh
      refine ⟨?_, ?_, ?_⟩
      · intro j
        dsimp only
        by_cases hij : j = i
        · rw [hij, Function.update_same]
          simp
        · rw [Function.update_noteq hij]
          constructor
          · intro hj
            have hl2 := (i1 j).mp hj
            rw [hlock] at hl2
            exact absurd (Option.some.inj hl2).symm hij
          · intro hj
            exact Option.noConfusion hj
      · intro j
        dsimp only
        by_cases hij : j = i
        · rw [hij, Function.update_same]
          dsimp only
          rw [hpm]
          intro h
          exact Bool.noConfusion h
        · rw [Function.update_noteq hij]
          exact i2 j
      · intro j
        dsimp only
        by_cases hij : j = i
        · rw [hij, Function.update_same]
          dsimp only
          rw [hpm]
          exact hwf2
        · rw [Function.update_noteq hij]
          exact i3 j
  | enterPrim i rest hp =>
      have hwf := i3 i
      rw [hp] at hwf
      simp [wfProg] at hwf
      obtain ⟨⟨hh, hpm⟩, hwf2⟩ := hwf
      refine ⟨?_, ?_, ?_⟩
      · intro j
        dsimp only
        by_cases hij : j = i
        · rw [hij, Function.update_same]
          simp [hh, (i1 i).mp hh]
        · rw [Function.update_noteq hij]
          exact i1 j
      · intro j
        dsimp only
        by_cases hij : j = i
        · rw [hij, Function.update_same]
          intro _
          dsimp only
          exact hh
        · rw [Function.update_noteq hij]
          exact i2 j
      · intro j
        dsimp only
        by_cases hij : j = i
        · rw [hij, Function.update_same]
          exact hwf2
        · rw [Function.update_noteq hij]
          exact i3 j
  | exitPrim i rest hp =>
      have hwf := i3 i
      rw [hp] at hwf
      simp [wfProg] at hwf
      obtain ⟨⟨hh, hpm⟩, hwf2⟩ := hwf
      refine ⟨?_, ?_, ?_⟩
      · intro j
        dsimp only
        by_cases hij : j = i
        · rw [hij, Function.update_same]
          dsimp only
          exact i1 i
        · rw [Function.update_noteq hij]
          exact i1 j
      · intro j
        dsimp only
        by_cases hij : j = i
        · rw [hij, Function.update_same]
          intro h
          exact Bool.noConfusion h
        · rw [Function.update_noteq hij]
          exact i2 j
      · intro j
        dsimp only
        by_cases hij : j = i
        · rw [hij, Function.update_same]
          exact hwf2
        · rw [Function.update_noteq hij]
          exact i3 j
  | silent i rest hp =>
      have hwf := i3 i
      rw [hp] at hwf
      simp only [wfProg] at hwf
      refine ⟨?_, ?_, ?_⟩
      · intro j
        dsimp only
        by_cases hij : j = i
        · rw [hij, Function.update_same]
          exact i1 i
        · rw [Function.update_noteq hij]
          exact i1 j
      · intro j
        dsimp only
        by_cases hij : j = i
        · rw [hij, Function.update_same]
          exact i2 i
        · rw [Function.update_noteq hij]
          exact i2 j
      · intro j
        dsimp only
        by_cases hij : j = i
        · rw [hij, Function.update_same]
          exact hwf
        · rw [Function.update_noteq hij]
          exact i3 j

/-- The invariant holds in every reachable state. -/
theorem inv_of_reach {n : Nat} {σ0 σ : Sys n} (h0 : Inv σ0) (h : Reach σ0 σ) :
    Inv σ := by
  induction h with
  | refl => exact h0
  | tail _ hstep ih => exact inv_step ih hstep

/-- `_speak`'s trace respects the lock discipline. -/
theorem wf_speakTrace (tts : Bool) : wfProg false false (speakTrace tts) = true := by
  cases tts <;> rfl

/-- The alarm announcement's trace respects the lock discipline. -/
theorem wf_alarmAnnounceTrace (tts : Bool) (e : Event) :
    wfProg false false (alarmAnnounceTrace tts e) = true := by
  unfold alarmAnnounceTrace
  cases e.description <;> cases tts <;> rfl

/-- The news worker's trace respects the lock discipline. -/
theorem wf_newsWorkerSpeakTrace (tts : Bool) :
    wfProg false false (newsWorkerSpeakTrace tts) = true := by
  cases tts <;> rfl

/-- `speak_async`'s trace respects the lock discipline. -/
theorem wf_speakAsyncTrace (tts : Bool) :
    wfProg false false (speakAsyncTrace tts) = true := by
  cases tts <;> rfl

/-- The initial three-producer system satisfies the invariant. -/
theorem inv_initSys (tts : Bool) (e : Event) : Inv (initSys tts e) := by
  refine ⟨?_, ?_, ?_⟩
  · intro i
    fin_cases i <;> simp [initSys, initThreads]
  · intro i
    fin_cases i <;> simp [initSys, initThreads]
  · intro i
    fin_cases i
    · exact wf_alarmAnnounceTrace tts e
    · exact wf_newsWorkerSpeakTrace tts
    · exact wf_speakAsyncTrace tts

/-- C9: in every state reachable by interleaving the three speech producers
(alarm announcement, news readback, chat-reply announcement), at most one
thread is inside the external speak primitive: all producers reach it only
while holding the single `tts_lock`. -/
theorem c9_speech_serialized (tts : Bool) (e : Event) (σ : Sys 3)
    (h : Reach (initSys tts e) σ) (i j : Fin 3)
    (hi : (σ.thr i).inPrim = true) (hj : (σ.thr j).inPrim = true) : i = j := by
  obtain ⟨inv1, inv2, -⟩ := inv_of_reach (inv_initSys tts e) h
  have hli : σ.lock = some i := (inv1 i).mp (inv2 i hi)
  have hlj : σ.lock = some j := (inv1 j).mp (inv2 j hj)
  exact Option.some.inj (hli.symm.trans hlj)

/-- Witness for C9: after thread 0 acquires the lock and enters the
primitive, it is the unique thread inside the primitive. -/
theorem c9_speech_serialized_witness :
    (demoSys3.thr 0).inPrim = true ∧ ((0 : Fin 3) = 0) := by
  have h1 : Step (initSys true demoEvent) demoSys1 :=
    Step.acquire (initSys true demoEvent) 0
      [.silent, .enterPrim, .exitPrim, .silent, .release] rfl rfl
  have h2 : Step demoSys1 demoSys2 :=
    Step.silent demoSys1 0 [.enterPrim, .exitPrim, .silent, .release] rfl
  have h3 : Step demoSys2 demoSys3 :=
    Step.enterPrim demoSys2 0 [.exitPrim, .silent, .release] rfl
  have hr : Reach (initSys true demoEvent) demoSys3 :=
    Relation.ReflTransGen.head h1
      (Relation.ReflTransGen.head h2 (Relation.ReflTransGen.single h3))
  exact ⟨rfl, c9_speech_serialized true demoEvent demoSys3 hr 0 0 rfl rfl⟩

end Speech
